import Mathlib

/-!
Shallow embedding of the uptime-monitor bot (`src/app.py`, the bot code in
`RAW_CODE`).  Times are modelled as rationals (seconds since the epoch, as
produced by `time.time()`); Python `None` becomes `Option`.  Python truthiness
on optional timestamps (`if monitor.last_checked:` treats `0.0` like `None`)
is modelled explicitly.
-/

set_option maxHeartbeats 1000000

namespace Uptime

/-- One entry of `WebsiteMonitor.status_history`
    (`add_status_record` in `app.py`). -/
structure StatusRecord where
  timestamp : ℚ
  status : Bool
  response_time : ℚ
  error : String
deriving DecidableEq

/-- The `WebsiteMonitor` class of `app.py`. -/
structure WebsiteMonitor where
  name : String
  url : String
  check_interval : ℚ
  timeout : ℚ
  is_up : Bool
  last_checked : Option ℚ
  last_up_time : Option ℚ
  response_times : List ℚ
  downtime_start : Option ℚ
  total_downtime : ℚ
  consecutive_failures : ℕ
  failure_threshold : ℕ
  status_history : List StatusRecord
  last_check_succeeded : Option Bool
deriving DecidableEq

/-- `WebsiteMonitor.__init__`. -/
def WebsiteMonitor.init (name url : String) (check_interval timeout : ℚ) :
    WebsiteMonitor where
  name := name
  url := url
  check_interval := check_interval
  timeout := timeout
  is_up := true
  last_checked := none
  last_up_time := none
  response_times := []
  downtime_start := none
  total_downtime := 0
  consecutive_failures := 0
  failure_threshold := 2
  status_history := []
  last_check_succeeded := none

/-- Python truthiness of an optional float (`None` and `0.0` are falsy). -/
def optTruthy : Option ℚ → Bool
  | none => false
  | some x => decide (x ≠ 0)

/-- The history trimming of `add_status_record`: after appending, if the
    length exceeds 50, `pop(0)` removes the oldest entry. -/
def trimHistory (h : List StatusRecord) : List StatusRecord :=
  if 50 < h.length then h.tail else h

/-- `WebsiteMonitor.add_status_record`. -/
def WebsiteMonitor.add_status_record (m : WebsiteMonitor) (now : ℚ)
    (status : Bool) (response_time : ℚ) (error : String) : WebsiteMonitor :=
  { m with status_history :=
      trimHistory (m.status_history ++ [⟨now, status, response_time, error⟩]) }

/-- `WebsiteMonitor.get_uptime_percentage`: timestamps newer than
    `now - hours` (hours converted to seconds) are kept; the ratio of up
    records among them, as a percentage; `100` when there is no history or
    no record in the window. -/
def WebsiteMonitor.get_uptime_percentage (m : WebsiteMonitor) (now : ℚ)
    (hours : ℚ) : ℚ :=
  if m.status_history = [] then 100
  else
    let cutoff := now - hours * 3600
    let recent := m.status_history.filter (fun r => decide (cutoff < r.timestamp))
    if recent = [] then 100
    else
      let up_count := (recent.filter (fun r => r.status)).length
      ((up_count : ℚ) / (recent.length : ℚ)) * 100

/-- Alert events handed to `send_alert` (the Notifier collaborator). -/
inductive AlertEvent where
  | recovery (name url : String) (response_time downtime_duration : ℚ)
  | down (name url error : String) (failures threshold : ℕ)
deriving DecidableEq

/-- `UptimeBot.handle_website_up`.  Sets `last_checked`, appends the latency;
    when the monitor was down it flips up, stamps `last_up_time`, accumulates
    downtime when `downtime_start` is truthy, zeroes `consecutive_failures`
    and emits one Recovery event; finally appends a history record.
    Note the source never clears `downtime_start` here. -/
def handle_website_up (m : WebsiteMonitor) (now : ℚ) (response_time : ℚ) :
    WebsiteMonitor × List AlertEvent :=
  let m1 := { m with last_checked := some now,
                     response_times := m.response_times ++ [response_time] }
  if m1.is_up then
    (m1.add_status_record now true response_time "", [])
  else
    let dd : ℚ := if optTruthy m1.downtime_start
                  then now - m1.downtime_start.getD 0 else 0
    let m2 := { m1 with is_up := true,
                        last_up_time := some now,
                        total_downtime := m1.total_downtime + dd,
                        consecutive_failures := 0 }
    (m2.add_status_record now true response_time "",
     [AlertEvent.recovery m2.name m2.url response_time dd])

/-- `UptimeBot.handle_website_down`.  Sets `last_checked`, increments
    `consecutive_failures`; when the monitor is up and the counter has
    reached `failure_threshold` it flips down, stamps `downtime_start` and
    emits one Down event; finally appends a history record. -/
def handle_website_down (m : WebsiteMonitor) (now : ℚ) (error : String) :
    WebsiteMonitor × List AlertEvent :=
  let m1 := { m with last_checked := some now,
                     consecutive_failures := m.consecutive_failures + 1 }
  if m1.is_up && decide (m1.failure_threshold ≤ m1.consecutive_failures) then
    let m2 := { m1 with is_up := false, downtime_start := some now }
    (m2.add_status_record now false 0 error,
     [AlertEvent.down m2.name m2.url error m2.consecutive_failures
        m2.failure_threshold])
  else
    (m1.add_status_record now false 0 error, [])

/-- The outcome of the underlying `requests.get` call in
    `check_single_website`: either a response with a status code and an
    elapsed time in milliseconds, or one of the exception classes caught
    there. -/
inductive ProbeOutcome where
  | response (status_code : ℕ) (elapsed_ms : ℚ)
  | timeout
  | connectionError
  | requestError (msg : String)
  | unexpectedError (msg : String)
deriving DecidableEq

/-- Whether `check_single_website` treats the outcome as a failure
    (everything except a response with status in [200, 400)). -/
def ProbeOutcome.fails : ProbeOutcome → Bool
  | .response s _ => !decide (200 ≤ s ∧ s < 400)
  | _ => true

/-- `UptimeBot.check_single_website`: classifies the probe outcome, feeds it
    to `handle_website_up` / `handle_website_down`, and records
    `last_check_succeeded`.  Every exception branch of the source is a
    constructor here, so the function is total: no exception escapes. -/
def check_single_website (m : WebsiteMonitor) (now : ℚ)
    (outcome : ProbeOutcome) : WebsiteMonitor × List AlertEvent :=
  match outcome with
  | .response s e =>
    if 200 ≤ s ∧ s < 400 then
      let r := handle_website_up m now e
      ({ r.1 with last_check_succeeded := some true }, r.2)
    else
      let r := handle_website_down m now ("HTTP " ++ toString s)
      ({ r.1 with last_check_succeeded := some false }, r.2)
  | .timeout =>
      let r := handle_website_down m now "Timeout"
      ({ r.1 with last_check_succeeded := some false }, r.2)
  | .connectionError =>
      let r := handle_website_down m now "Connection Error"
      ({ r.1 with last_check_succeeded := some false }, r.2)
  | .requestError msg =>
      let r := handle_website_down m now msg
      ({ r.1 with last_check_succeeded := some false }, r.2)
  | .unexpectedError msg =>
      let r := handle_website_down m now ("Unexpected Error: " ++ msg)
      ({ r.1 with last_check_succeeded := some false }, r.2)

/-- The skip test of `check_websites`:
    `if (monitor.last_checked and time.time() - monitor.last_checked <
    monitor.check_interval): continue`.  `last_checked` equal to `0.0` is
    falsy in Python, hence `optTruthy`. -/
def shouldSkip (m : WebsiteMonitor) (now : ℚ) : Bool :=
  optTruthy m.last_checked &&
    decide (now - m.last_checked.getD 0 < m.check_interval)

/-- A monitor is due on a tick exactly when `check_websites` does not skip
    it. -/
def isDue (m : WebsiteMonitor) (now : ℚ) : Bool := !(shouldSkip m now)

/-- One monitor's treatment on a `check_websites` tick: probed when due,
    untouched otherwise. -/
def tick_monitor (now : ℚ) (outcome : ProbeOutcome) (m : WebsiteMonitor) :
    WebsiteMonitor × List AlertEvent :=
  if isDue m now then check_single_website m now outcome else (m, [])

/-- `UptimeBot.check_websites`: iterates the monitors in registry order,
    probing exactly the due ones (`outcomes` supplies each probe's network
    outcome by monitor name). -/
def check_websites (now : ℚ) (outcomes : String → ProbeOutcome)
    (monitors : List WebsiteMonitor) : List (WebsiteMonitor × List AlertEvent) :=
  monitors.map (fun m => tick_monitor now (outcomes m.name) m)

/-- The registry: `bot.monitors` is a Python dict keyed by name, iterated in
    insertion order, modelled as an association list in insertion order. -/
def Registry := List (String × WebsiteMonitor)

/-- The `list` action of `monitor_command`: iterates `bot.monitors.items()`
    (insertion order, no sorting) and renders one embed field per monitor —
    the dict key, the field title (status glyph and name) and the field
    value (url and interval line). -/
def list_action (monitors : Registry) : List (String × String × String) :=
  monitors.map (fun p =>
    (p.1,
     (if p.2.is_up then "🟢 UP " else "🔴 DOWN ") ++ p.1,
     "URL: " ++ p.2.url ++ "\nInterval: " ++ toString p.2.check_interval ++ "s"))

/-- Number of Down events in an event list. -/
def downCount (evs : List AlertEvent) : ℕ :=
  (evs.filter (fun e => match e with | .down .. => true | _ => false)).length

/-- Number of Recovery events in an event list. -/
def recoveryCount (evs : List AlertEvent) : ℕ :=
  (evs.filter (fun e => match e with | .recovery .. => true | _ => false)).length

/-- `n` consecutive failed probes fed through `handle_website_down`,
    accumulating the emitted events. -/
def iterate_failures (m : WebsiteMonitor) (now : ℚ) (err : String) :
    ℕ → WebsiteMonitor × List AlertEvent
  | 0 => (m, [])
  | n + 1 =>
    let r := iterate_failures m now err n
    let r' := handle_website_down r.1 now err
    (r'.1, r.2 ++ r'.2)

/-- The error text of the most recent status record. -/
def lastError (m : WebsiteMonitor) : String :=
  (m.status_history.getLastD ⟨0, true, 0, ""⟩).error

/-- The up/down flag of the most recent status record. -/
def lastStatus (m : WebsiteMonitor) : Bool :=
  (m.status_history.getLastD ⟨0, true, 0, ""⟩).status

/-- `run_probes`: a sequence of probe results fed through the transition
    engine, monitor state only. -/
def run_probes (m : WebsiteMonitor) (ticks : List (ℚ × ProbeOutcome)) :
    WebsiteMonitor :=
  ticks.foldl (fun m t => (check_single_website m t.1 t.2).1) m

/-- A concrete freshly added monitor, used to instantiate theorems. -/
def sampleMonitor : WebsiteMonitor :=
  WebsiteMonitor.init "alpha" "http://alpha.example" 60 10

/-- A concrete monitor currently down, with an active down period. -/
def sampleDownMonitor : WebsiteMonitor :=
  { sampleMonitor with is_up := false, downtime_start := some 5,
                       consecutive_failures := 3 }

section Lemmas

/-- A failed probe on a monitor that is already down changes no state-machine
    field except the counter, the check stamp and the history, and emits
    nothing. -/
lemma handle_down_of_down (m : WebsiteMonitor) (now : ℚ) (err : String)
    (h : m.is_up = false) :
    handle_website_down m now err =
      ({ m with last_checked := some now,
                consecutive_failures := m.consecutive_failures + 1,
                status_history :=
                  trimHistory (m.status_history ++ [⟨now, false, 0, err⟩]) },
       []) := by
  simp [handle_website_down, WebsiteMonitor.add_status_record, h]

lemma trimHistory_length (h : List StatusRecord) :
    (trimHistory h).length =
      if 50 < h.length then h.length - 1 else h.length := by
  unfold trimHistory
  split <;> simp [List.length_tail]

lemma add_record_length (m : WebsiteMonitor) (now : ℚ) (st : Bool) (rt : ℚ)
    (err : String) :
    (m.add_status_record now st rt err).status_history.length =
      if 50 < m.status_history.length + 1 then m.status_history.length
      else m.status_history.length + 1 := by
  simp [WebsiteMonitor.add_status_record, trimHistory_length]

end Lemmas

/-- C1: starting from an up monitor at the beginning of a failure run
    (`consecutive_failures = 0`, threshold 2), the first failed probe leaves
    `is_up = true` with no Down event; the second flips `is_up = false` with
    exactly one Down event; every further consecutive failure emits no
    additional Down event. -/
theorem two_failures_flip_down (m : WebsiteMonitor) (now : ℚ) (err : String)
    (hup : m.is_up = true) (hcf : m.consecutive_failures = 0)
    (hth : m.failure_threshold = 2) :
    ((iterate_failures m now err 1).1.is_up = true ∧
      downCount (iterate_failures m now err 1).2 = 0) ∧
    ((iterate_failures m now err 2).1.is_up = false ∧
      downCount (iterate_failures m now err 2).2 = 1) ∧
    (∀ n, 2 ≤ n → (iterate_failures m now err n).1.is_up = false ∧
      downCount (iterate_failures m now err n).2 = 1) := by
  have h1 : (iterate_failures m now err 1).1.is_up = true ∧
      downCount (iterate_failures m now err 1).2 = 0 := by
    simp [iterate_failures, handle_website_down,
      WebsiteMonitor.add_status_record, hup, hcf, hth, downCount]
  have h2 : (iterate_failures m now err 2).1.is_up = false ∧
      downCount (iterate_failures m now err 2).2 = 1 := by
    simp [iterate_failures, handle_website_down,
      WebsiteMonitor.add_status_record, hup, hcf, hth, downCount]
  refine ⟨h1, h2, ?_⟩
  intro n hn
  induction n, hn using Nat.le_induction with
  | base => exact h2
  | succ k hk ih =>
    have hstep := handle_down_of_down (iterate_failures m now err k).1 now err
      ih.1
    constructor
    · show (iterate_failures m now err (k + 1)).1.is_up = false
      simp [iterate_failures, hstep]
      exact ih.1
    · show downCount (iterate_failures m now err (k + 1)).2 = 1
      simp [iterate_failures, hstep, downCount] at ih ⊢
      exact ih.2

/-- Witness for C1 at a concrete monitor: after three consecutive failures
    the sample monitor is down and exactly one Down event was emitted. -/
theorem two_failures_flip_down_witness :
    (iterate_failures sampleMonitor 5 "Timeout" 3).1.is_up = false ∧
    downCount (iterate_failures sampleMonitor 5 "Timeout" 3).2 = 1 :=
  (two_failures_flip_down sampleMonitor 5 "Timeout" rfl rfl rfl).2.2 3
    (by decide)

/-- C2 counterexample: a failed probe followed by a successful probe on a
    still-up monitor.  After the success is processed,
    `consecutive_failures` is 1, not 0: the reset in `handle_website_up`
    sits inside the `if not monitor.is_up` branch and is skipped when the
    monitor is already up. -/
theorem success_reset_counterexample :
    (check_single_website
        (check_single_website sampleMonitor 1 ProbeOutcome.timeout).1
        2 (ProbeOutcome.response 200 100)).1.consecutive_failures ≠ 0 := by
  decide

/-- C2 amended: a successful probe resets `consecutive_failures` to 0 only
    when the monitor was down (recovery); a success processed while the
    monitor is already up leaves the counter unchanged. -/
theorem success_resets_counter_only_on_recovery (m : WebsiteMonitor)
    (now rt : ℚ) :
    (m.is_up = false →
      (handle_website_up m now rt).1.consecutive_failures = 0) ∧
    (m.is_up = true →
      (handle_website_up m now rt).1.consecutive_failures =
        m.consecutive_failures) := by
  constructor <;> intro h <;>
    simp [handle_website_up, WebsiteMonitor.add_status_record, h]

/-- Witness for the amended C2: processing a success on the concrete down
    monitor zeroes the counter. -/
theorem success_resets_counter_only_on_recovery_witness :
    (handle_website_up sampleDownMonitor 10 100).1.consecutive_failures = 0 :=
  (success_resets_counter_only_on_recovery sampleDownMonitor 10 100).1 rfl

/-- C3 counterexample: recovering the concrete down monitor leaves
    `downtime_start` set (`some 5`) while `is_up = true` — the source never
    clears it, so "after any recovery downtimeStartedAt is unset" fails. -/
theorem downtime_cleared_counterexample :
    (handle_website_up sampleDownMonitor 10 100).1.is_up = true ∧
    (handle_website_up sampleDownMonitor 10 100).1.downtime_start ≠ none := by
  decide

/-- C3 amended: `downtime_start` is stamped with `now` on the transition to
    down, but recovery leaves it unchanged — after a recovery it still holds
    the start of the last down period while `is_up = true`, and is only
    overwritten by the next transition to down. -/
theorem downtime_start_set_on_down_kept_on_recovery (m : WebsiteMonitor)
    (now rt : ℚ) (err : String) :
    (m.is_up = true → m.failure_threshold ≤ m.consecutive_failures + 1 →
      (handle_website_down m now err).1.downtime_start = some now) ∧
    (handle_website_up m now rt).1.downtime_start = m.downtime_start := by
  constructor
  · intro h1 h2
    simp [handle_website_down, WebsiteMonitor.add_status_record, h1, h2]
  · by_cases h : m.is_up <;>
      simp [handle_website_up, WebsiteMonitor.add_status_record, h]

/-- Witness for the amended C3: the second consecutive failure stamps
    `downtime_start`, and the following recovery keeps it. -/
theorem downtime_start_set_on_down_kept_on_recovery_witness :
    (handle_website_down
        { sampleMonitor with consecutive_failures := 1 } 7 "Timeout").1.downtime_start
      = some 7 ∧
    (handle_website_up sampleDownMonitor 10 100).1.downtime_start =
      sampleDownMonitor.downtime_start :=
  ⟨(downtime_start_set_on_down_kept_on_recovery
      { sampleMonitor with consecutive_failures := 1 } 7 100 "Timeout").1
      rfl (by decide),
   (downtime_start_set_on_down_kept_on_recovery sampleDownMonitor 10 100
      "Timeout").2⟩

/-- C4: a successful probe on a down monitor (any number of preceding
    consecutive failures) flips `is_up` to true, stamps `last_up_time`,
    zeroes `consecutive_failures`, emits exactly one event, a Recovery; and
    it adds exactly `now - downtime_start` to `total_downtime` when
    `downtime_start` holds a (nonzero wall-clock) timestamp, and adds
    nothing when it is unset. -/
theorem recovery_on_first_success (m : WebsiteMonitor) (now rt : ℚ)
    (hdown : m.is_up = false) :
    (handle_website_up m now rt).1.is_up = true ∧
    (handle_website_up m now rt).1.last_up_time = some now ∧
    (handle_website_up m now rt).1.consecutive_failures = 0 ∧
    recoveryCount (handle_website_up m now rt).2 = 1 ∧
    (handle_website_up m now rt).2.length = 1 ∧
    (∀ ds : ℚ, m.downtime_start = some ds → ds ≠ 0 →
      (handle_website_up m now rt).1.total_downtime =
        m.total_downtime + (now - ds)) ∧
    (m.downtime_start = none →
      (handle_website_up m now rt).1.total_downtime = m.total_downtime) := by
  refine ⟨?_, ?_, ?_, ?_, ?_, ?_, ?_⟩ <;>
    simp [handle_website_up, WebsiteMonitor.add_status_record, hdown,
      recoveryCount, optTruthy]
  · intro ds hds hne
    simp [hds, hne]
  · intro hnone
    simp [hnone]

/-- Witness for C4 at the concrete down monitor: recovery at `now = 10`
    after a down period started at 5 flips up and adds 5 seconds of
    downtime. -/
theorem recovery_on_first_success_witness :
    (handle_website_up sampleDownMonitor 10 100).1.is_up = true ∧
    (handle_website_up sampleDownMonitor 10 100).1.total_downtime =
      sampleDownMonitor.total_downtime + (10 - 5) :=
  ⟨(recovery_on_first_success sampleDownMonitor 10 100 rfl).1,
   (recovery_on_first_success sampleDownMonitor 10 100 rfl).2.2.2.2.2.1 5 rfl
     (by norm_num)⟩

section HistoryLemmas

lemma trimHistory_at_capacity (h : List StatusRecord) (r : StatusRecord)
    (hlen : h.length = 50) : trimHistory (h ++ [r]) = h.tail ++ [r] := by
  have hne : h ≠ [] := by
    intro e
    simp [e] at hlen
  unfold trimHistory
  rw [if_pos (by simp [hlen]), List.tail_append_of_ne_nil hne]

lemma trimHistory_below (h : List StatusRecord) (r : StatusRecord)
    (hlen : h.length < 50) : trimHistory (h ++ [r]) = h ++ [r] := by
  unfold trimHistory
  rw [if_neg]
  simp
  omega

lemma check_history_length (m : WebsiteMonitor) (now : ℚ) (o : ProbeOutcome) :
    (check_single_website m now o).1.status_history.length =
      if 50 < m.status_history.length + 1 then m.status_history.length
      else m.status_history.length + 1 := by
  cases o <;>
    simp [check_single_website, handle_website_up, handle_website_down,
      WebsiteMonitor.add_status_record] <;>
    split_ifs <;>
    simp [trimHistory_length] <;>
    omega

lemma check_history_append (m : WebsiteMonitor) (now : ℚ) (o : ProbeOutcome) :
    ∃ r : StatusRecord,
      (check_single_website m now o).1.status_history =
        trimHistory (m.status_history ++ [r]) := by
  cases o <;>
    simp only [check_single_website, handle_website_up, handle_website_down,
      WebsiteMonitor.add_status_record] <;>
    split_ifs <;> exact ⟨_, rfl⟩

end HistoryLemmas

/-- C5: each processed probe result appends exactly one record to the
    history (at capacity the oldest entry is evicted first), the 50-entry
    bound is preserved by one step, and it holds after any number of
    processed probes. -/
theorem status_history_capacity (m : WebsiteMonitor) (now : ℚ)
    (o : ProbeOutcome) (ticks : List (ℚ × ProbeOutcome)) :
    ((check_single_website m now o).1.status_history.length =
       if 50 < m.status_history.length + 1 then m.status_history.length
       else m.status_history.length + 1) ∧
    (m.status_history.length < 50 →
       ∃ r : StatusRecord,
         (check_single_website m now o).1.status_history =
           m.status_history ++ [r]) ∧
    (m.status_history.length = 50 →
       ∃ r : StatusRecord,
         (check_single_website m now o).1.status_history =
           m.status_history.tail ++ [r]) ∧
    (m.status_history.length ≤ 50 →
       (check_single_website m now o).1.status_history.length ≤ 50) ∧
    (m.status_history.length ≤ 50 →
       (run_probes m ticks).status_history.length ≤ 50) := by
  refine ⟨check_history_length m now o, ?_, ?_, ?_, ?_⟩
  · intro hlt
    obtain ⟨r, hr⟩ := check_history_append m now o
    exact ⟨r, by rw [hr, trimHistory_below _ _ hlt]⟩
  · intro heq
    obtain ⟨r, hr⟩ := check_history_append m now o
    exact ⟨r, by rw [hr, trimHistory_at_capacity _ _ heq]⟩
  · intro hle
    rw [check_history_length]
    split_ifs <;> omega
  · intro hle
    induction ticks generalizing m with
    | nil => exact hle
    | cons t ts ih =>
      have hstep : (check_single_website m t.1 t.2).1.status_history.length ≤ 50 := by
        rw [check_history_length]
        split_ifs <;> omega
      exact ih _ hstep

/-- A monitor whose history is at the 50-entry capacity. -/
def fullMonitor : WebsiteMonitor :=
  { sampleMonitor with
      status_history := List.replicate 50 ⟨0, true, 0, ""⟩ }

/-- Witness for C5: at capacity the concrete monitor evicts the oldest
    record, and two concrete probes keep the fresh monitor within bound. -/
theorem status_history_capacity_witness :
    (∃ r : StatusRecord,
       (check_single_website fullMonitor 1 ProbeOutcome.timeout).1.status_history =
         fullMonitor.status_history.tail ++ [r]) ∧
    (run_probes sampleMonitor
        [(1, ProbeOutcome.timeout), (2, ProbeOutcome.response 200 50)]).status_history.length ≤ 50 :=
  ⟨(status_history_capacity fullMonitor 1 ProbeOutcome.timeout []).2.2.1
      (by simp [fullMonitor]),
   (status_history_capacity sampleMonitor 1 ProbeOutcome.timeout
      [(1, ProbeOutcome.timeout), (2, ProbeOutcome.response 200 50)]).2.2.2.2
      (by simp [sampleMonitor, WebsiteMonitor.init])⟩

/-- C6: the uptime percentage is `100 * #up / #total` over exactly the
    history entries with timestamp strictly newer than `now - windowHours`;
    it is 100 when the history is empty and when no entry falls inside the
    window; and a record on or before the cutoff never changes the
    result. -/
theorem uptime_percentage_window (m : WebsiteMonitor) (now hours : ℚ)
    (r : StatusRecord) :
    (m.status_history = [] → m.get_uptime_percentage now hours = 100) ∧
    (m.status_history.filter
        (fun x => decide (now - hours * 3600 < x.timestamp)) = [] →
      m.get_uptime_percentage now hours = 100) ∧
    (m.status_history.filter
        (fun x => decide (now - hours * 3600 < x.timestamp)) ≠ [] →
      m.get_uptime_percentage now hours =
        (((m.status_history.filter
              (fun x => decide (now - hours * 3600 < x.timestamp))).filter
            (fun x => x.status)).length : ℚ) /
          ((m.status_history.filter
              (fun x => decide (now - hours * 3600 < x.timestamp))).length : ℚ)
          * 100) ∧
    (r.timestamp ≤ now - hours * 3600 →
      WebsiteMonitor.get_uptime_percentage
          { m with status_history := m.status_history ++ [r] } now hours =
        m.get_uptime_percentage now hours) := by
  refine ⟨?_, ?_, ?_, ?_⟩
  · intro h
    simp [WebsiteMonitor.get_uptime_percentage, h]
  · intro h
    by_cases he : m.status_history = []
    · simp [WebsiteMonitor.get_uptime_percentage, he]
    · simp [WebsiteMonitor.get_uptime_percentage, he, h]
  · intro h
    have he : m.status_history ≠ [] := by
      intro e
      exact h (by simp [e])
    simp [WebsiteMonitor.get_uptime_percentage, he, h]
  · intro hr
    have hnot : ¬ (now - hours * 3600 < r.timestamp) := not_lt.mpr hr
    have hfilt : (m.status_history ++ [r]).filter
          (fun x => decide (now - hours * 3600 < x.timestamp)) =
        m.status_history.filter
          (fun x => decide (now - hours * 3600 < x.timestamp)) := by
      simp [List.filter_append, hnot]
    by_cases he : m.status_history = []
    · simp [WebsiteMonitor.get_uptime_percentage, he, hnot]
    · simp only [WebsiteMonitor.get_uptime_percentage]
      rw [if_neg (by simp [he]), if_neg he]
      simp only [hfilt]

/-- A monitor with three in-window records, two up and one down. -/
def historyMonitor : WebsiteMonitor :=
  { sampleMonitor with
      status_history :=
        [⟨100000, true, 120, ""⟩, ⟨100001, true, 130, ""⟩,
         ⟨100002, false, 0, "Timeout"⟩] }

/-- A monitor whose only record is far older than the 24-hour window. -/
def staleMonitor : WebsiteMonitor :=
  { sampleMonitor with status_history := [⟨10, true, 120, ""⟩] }

/-- Witness for C6: empty history gives 100, a history entirely outside the
    window gives 100, and appending an out-of-window record to the concrete
    three-record monitor leaves the percentage unchanged. -/
theorem uptime_percentage_window_witness :
    sampleMonitor.get_uptime_percentage 500000 24 = 100 ∧
    staleMonitor.get_uptime_percentage 500000 24 = 100 ∧
    WebsiteMonitor.get_uptime_percentage
        { historyMonitor with
            status_history := historyMonitor.status_history ++
              [⟨10, false, 0, "old"⟩] } 100003 24 =
      historyMonitor.get_uptime_percentage 100003 24 :=
  ⟨(uptime_percentage_window sampleMonitor 500000 24 ⟨0, true, 0, ""⟩).1 rfl,
   (uptime_percentage_window staleMonitor 500000 24 ⟨0, true, 0, ""⟩).2.1
     (by norm_num [staleMonitor, List.filter_cons]),
   (uptime_percentage_window historyMonitor 100003 24 ⟨10, false, 0, "old"⟩).2.2.2
     (by norm_num)⟩

section CheckerLemmas

lemma getLastD_trimHistory (h : List StatusRecord) (r d : StatusRecord) :
    (trimHistory (h ++ [r])).getLastD d = r := by
  unfold trimHistory
  split
  · rename_i hlen
    have hne : h ≠ [] := by
      intro e
      simp [e] at hlen
    rw [List.tail_append_of_ne_nil hne, List.getLastD_concat]
  · exact List.getLastD_concat d r h

lemma getLast?_getD_trimHistory (h : List StatusRecord) (r d : StatusRecord) :
    (trimHistory (h ++ [r])).getLast?.getD d = r := by
  rw [← List.getLastD_eq_getLast?]
  exact getLastD_trimHistory h r d

lemma handle_up_history (m : WebsiteMonitor) (now rt : ℚ) :
    (handle_website_up m now rt).1.status_history =
      trimHistory (m.status_history ++ [⟨now, true, rt, ""⟩]) := by
  by_cases h : m.is_up <;>
    simp [handle_website_up, WebsiteMonitor.add_status_record, h]

lemma handle_down_history (m : WebsiteMonitor) (now : ℚ) (err : String) :
    (handle_website_down m now err).1.status_history =
      trimHistory (m.status_history ++ [⟨now, false, 0, err⟩]) := by
  simp only [handle_website_down]
  split <;> simp [WebsiteMonitor.add_status_record]

end CheckerLemmas

/-- C7: a probe response is classified a success exactly when its status
    code lies in [200, 400); any other status yields a failed result whose
    recorded error text is "HTTP <status>"; and each exception kind caught
    in `check_single_website` (timeout, connection error, other request
    error, unexpected error) becomes a failed result — every constructor of
    `ProbeOutcome` is handled, so no exception crosses the checker
    boundary. -/
theorem checker_classification (m : WebsiteMonitor) (now e : ℚ) (s : ℕ)
    (msg : String) :
    ((check_single_website m now (ProbeOutcome.response s e)).1.last_check_succeeded
        = some true ↔ (200 ≤ s ∧ s < 400)) ∧
    (lastError (check_single_website m now (ProbeOutcome.response s e)).1 =
       if 200 ≤ s ∧ s < 400 then "" else "HTTP " ++ toString s) ∧
    (lastStatus (check_single_website m now (ProbeOutcome.response s e)).1 =
       decide (200 ≤ s ∧ s < 400)) ∧
    ((check_single_website m now ProbeOutcome.timeout).1.last_check_succeeded
        = some false ∧
     lastError (check_single_website m now ProbeOutcome.timeout).1 = "Timeout" ∧
     lastStatus (check_single_website m now ProbeOutcome.timeout).1 = false) ∧
    ((check_single_website m now ProbeOutcome.connectionError).1.last_check_succeeded
        = some false ∧
     lastError (check_single_website m now ProbeOutcome.connectionError).1 =
       "Connection Error") ∧
    ((check_single_website m now (ProbeOutcome.requestError msg)).1.last_check_succeeded
        = some false ∧
     lastError (check_single_website m now (ProbeOutcome.requestError msg)).1 =
       msg) ∧
    ((check_single_website m now (ProbeOutcome.unexpectedError msg)).1.last_check_succeeded
        = some false ∧
     lastError (check_single_website m now (ProbeOutcome.unexpectedError msg)).1 =
       "Unexpected Error: " ++ msg) ∧
    ((check_single_website m now (ProbeOutcome.response s e)).1.last_check_succeeded
        = some (!(ProbeOutcome.response s e).fails)) := by
  by_cases hs : 200 ≤ s ∧ s < 400 <;>
    refine ⟨?_, ?_, ?_, ⟨?_, ?_, ?_⟩, ⟨?_, ?_⟩, ⟨?_, ?_⟩, ⟨?_, ?_⟩, ?_⟩ <;>
    simp [check_single_website, ProbeOutcome.fails, lastError, lastStatus,
      handle_up_history, handle_down_history, getLastD_trimHistory,
      getLast?_getD_trimHistory, hs]

/-- A monitor with interval 60 whose last probe happened at wall-clock time
    `b` (the add-time probe of the scheduler scenario). -/
def tickMonitor (b : ℚ) : WebsiteMonitor :=
  { WebsiteMonitor.init "A" "http://a.example" 60 10 with last_checked := some b }

/-- C8: a monitor is probed on a tick exactly when it is due —
    `last_checked` unset, or `now - last_checked ≥ check_interval` (for
    wall-clock stamps, which are positive); skipped monitors are untouched.
    Scenario: with interval 60 and a probe at time `b`, the ticks at `b` and
    `b + 30` do not re-probe, the tick at `b + 60` does. -/
theorem scheduler_due_iff (m : WebsiteMonitor) (now t b : ℚ)
    (o : ProbeOutcome) (hb : 0 < b) :
    (m.last_checked = none → isDue m now = true) ∧
    (m.last_checked = some t → 0 < t →
      (isDue m now = true ↔ m.check_interval ≤ now - t)) ∧
    (isDue m now = true → tick_monitor now o m = check_single_website m now o) ∧
    (isDue m now = false → tick_monitor now o m = (m, [])) ∧
    (isDue (tickMonitor b) b = false ∧ isDue (tickMonitor b) (b + 30) = false ∧
     isDue (tickMonitor b) (b + 60) = true) := by
  refine ⟨?_, ?_, ?_, ?_, ?_, ?_, ?_⟩
  · intro h
    simp [isDue, shouldSkip, optTruthy, h]
  · intro h hpos
    simp [isDue, shouldSkip, optTruthy, h, hpos.ne', not_lt]
  · intro h
    simp [tick_monitor, h]
  · intro h
    simp [tick_monitor, h]
  · simp [isDue, shouldSkip, optTruthy, tickMonitor, WebsiteMonitor.init,
      hb.ne']
  · simp [isDue, shouldSkip, optTruthy, tickMonitor, WebsiteMonitor.init,
      hb.ne']
    norm_num
  · simp [isDue, shouldSkip, optTruthy, tickMonitor, WebsiteMonitor.init,
      hb.ne', not_lt]

/-- Witness for C8: a monitor never probed is due; the scenario monitor
    probed at time 100 is skipped at the ticks at 100 and 130 and probed
    again at 160. -/
theorem scheduler_due_iff_witness :
    isDue sampleMonitor 100 = true ∧
    isDue (tickMonitor 100) 100 = false ∧
    isDue (tickMonitor 100) 130 = false ∧
    isDue (tickMonitor 100) 160 = true := by
  refine ⟨?_, ?_, ?_, ?_⟩
  · exact (scheduler_due_iff sampleMonitor 100 0 100 ProbeOutcome.timeout
      (by norm_num)).1 rfl
  · exact (scheduler_due_iff (tickMonitor 100) 100 0 100 ProbeOutcome.timeout
      (by norm_num)).2.2.2.2.1
  · have h := (scheduler_due_iff (tickMonitor 100) 130 100 100
      ProbeOutcome.timeout (by norm_num)).2.1 rfl (by norm_num)
    rw [← Bool.not_eq_true]
    intro hT
    have h2 := h.mp hT
    norm_num [tickMonitor, WebsiteMonitor.init] at h2
  · exact ((scheduler_due_iff (tickMonitor 100) 160 100 100
      ProbeOutcome.timeout (by norm_num)).2.1 rfl (by norm_num)).mpr
      (by norm_num [tickMonitor, WebsiteMonitor.init])

/-- A registry whose insertion order ("beta" first, then "alpha") disagrees
    with the name order. -/
def sampleRegistry : Registry :=
  [("beta", WebsiteMonitor.init "beta" "http://beta.example" 60 10),
   ("alpha", WebsiteMonitor.init "alpha" "http://alpha.example" 60 10)]

/-- C9 counterexample: on the concrete registry holding "beta" before
    "alpha", the list action yields the names in insertion order
    ["beta", "alpha"], which is not ordered by name (lexicographically on
    the characters, as Python `sorted` would produce). -/
theorem list_sorted_counterexample :
    (list_action sampleRegistry).map (fun x => x.1) = ["beta", "alpha"] ∧
    ¬ List.Pairwise (fun a b : String => a.data ≤ b.data)
        ((list_action sampleRegistry).map (fun x => x.1)) := by
  constructor
  · rfl
  · decide

/-- C9 amended: the list action returns the monitors in the registry's
    insertion order (the Python dict's iteration order), for every registry
    contents — it does not sort by name (only the dashboard embed sorts). -/
theorem list_action_insertion_order (monitors : Registry) :
    (list_action monitors).map (fun x => x.1) =
      monitors.map (fun p => p.1) := by
  simp [list_action]

/-- C10: a failed probe processed while the monitor is already down touches
    only `last_checked`, `consecutive_failures` (incremented by 1),
    `last_check_succeeded` and the history (one appended record); `is_up`,
    `downtime_start`, `total_downtime`, `last_up_time`, `response_times`
    and the configuration are unchanged, and no alert event is emitted. -/
theorem down_failure_frame (m : WebsiteMonitor) (now : ℚ) (o : ProbeOutcome)
    (hdown : m.is_up = false) (hfail : o.fails = true) :
    (check_single_website m now o).1.is_up = false ∧
    (check_single_website m now o).1.downtime_start = m.downtime_start ∧
    (check_single_website m now o).1.total_downtime = m.total_downtime ∧
    (check_single_website m now o).1.last_up_time = m.last_up_time ∧
    (check_single_website m now o).1.response_times = m.response_times ∧
    (check_single_website m now o).1.consecutive_failures =
      m.consecutive_failures + 1 ∧
    (check_single_website m now o).1.last_checked = some now ∧
    (check_single_website m now o).1.last_check_succeeded = some false ∧
    (check_single_website m now o).2 = [] ∧
    (∃ r : StatusRecord, r.timestamp = now ∧ r.status = false ∧
      (check_single_website m now o).1.status_history =
        trimHistory (m.status_history ++ [r])) ∧
    (check_single_website m now o).1.name = m.name ∧
    (check_single_website m now o).1.url = m.url ∧
    (check_single_website m now o).1.check_interval = m.check_interval ∧
    (check_single_website m now o).1.timeout = m.timeout ∧
    (check_single_website m now o).1.failure_threshold =
      m.failure_threshold := by
  have hframe : ∀ err : String, handle_website_down m now err =
      ({ m with last_checked := some now,
                consecutive_failures := m.consecutive_failures + 1,
                status_history :=
                  trimHistory (m.status_history ++ [⟨now, false, 0, err⟩]) },
       []) := fun err => handle_down_of_down m now err hdown
  cases o with
  | response s e =>
    have hs : ¬ (200 ≤ s ∧ s < 400) := by
      have h2 : s < 200 ∨ 400 ≤ s := by
        simpa [ProbeOutcome.fails] using hfail
      omega
    refine ⟨?_, ?_, ?_, ?_, ?_, ?_, ?_, ?_, ?_, ⟨⟨now, false, 0,
        "HTTP " ++ toString s⟩, rfl, rfl, ?_⟩, ?_, ?_, ?_, ?_, ?_⟩ <;>
      simp [check_single_website, hs, hframe, hdown]
  | timeout =>
    refine ⟨?_, ?_, ?_, ?_, ?_, ?_, ?_, ?_, ?_, ⟨⟨now, false, 0,
        "Timeout"⟩, rfl, rfl, ?_⟩, ?_, ?_, ?_, ?_, ?_⟩ <;>
      simp [check_single_website, hframe, hdown]
  | connectionError =>
    refine ⟨?_, ?_, ?_, ?_, ?_, ?_, ?_, ?_, ?_, ⟨⟨now, false, 0,
        "Connection Error"⟩, rfl, rfl, ?_⟩, ?_, ?_, ?_, ?_, ?_⟩ <;>
      simp [check_single_website, hframe, hdown]
  | requestError msg =>
    refine ⟨?_, ?_, ?_, ?_, ?_, ?_, ?_, ?_, ?_, ⟨⟨now, false, 0,
        msg⟩, rfl, rfl, ?_⟩, ?_, ?_, ?_, ?_, ?_⟩ <;>
      simp [check_single_website, hframe, hdown]
  | unexpectedError msg =>
    refine ⟨?_, ?_, ?_, ?_, ?_, ?_, ?_, ?_, ?_, ⟨⟨now, false, 0,
        "Unexpected Error: " ++ msg⟩, rfl, rfl, ?_⟩, ?_, ?_, ?_, ?_, ?_⟩ <;>
      simp [check_single_website, hframe, hdown]

/-- Witness for C10: a timed-out probe on the concrete down monitor leaves
    its down state, downtime anchor and accumulated downtime untouched and
    emits nothing. -/
theorem down_failure_frame_witness :
    (check_single_website sampleDownMonitor 3 ProbeOutcome.timeout).1.downtime_start
      = sampleDownMonitor.downtime_start ∧
    (check_single_website sampleDownMonitor 3 ProbeOutcome.timeout).1.total_downtime
      = sampleDownMonitor.total_downtime ∧
    (check_single_website sampleDownMonitor 3 ProbeOutcome.timeout).2 = [] :=
  ⟨(down_failure_frame sampleDownMonitor 3 ProbeOutcome.timeout rfl rfl).2.1,
   (down_failure_frame sampleDownMonitor 3 ProbeOutcome.timeout rfl rfl).2.2.1,
   (down_failure_frame sampleDownMonitor 3 ProbeOutcome.timeout rfl
      rfl).2.2.2.2.2.2.2.2.1⟩

end Uptime
